import Mathlib

/-!
Verification of the clinical-trial site-selection frontend.

This file shallowly embeds the investigation lifecycle tracker of the
repository: the status data model (`src/frontend/src/types/agent.types.ts`),
the polling protocol (`src/frontend/src/services/api.ts`), the default
handling of `startSiteAnalysis`, the overall-progress computation of
`SiteSelectionView` / `MonitoringView`, the mock forecast data of
`EnrollmentCurveChart`, the mock alerts of `AlertDashboard`, and — modelled
from the spec where the Python backend is absent from the sources — the
alert classifier.  Each claim about the program is then proved or refuted
over these definitions.
-/

namespace ClinicalTrial

/-- `StatusEnum` from agent.types.ts: PENDING/RUNNING/COMPLETE/ERROR. -/
inductive StatusEnum where
  | pending
  | running
  | complete
  | error
deriving DecidableEq, Repr

/-- `AgentStatus` from agent.types.ts: a named sub-task of an investigation.
`tasks` holds (name, output) pairs. -/
structure AgentStatus where
  agent_id : String
  agent_name : String
  status : StatusEnum
  started_at : Option String
  completed_at : Option String
  tasks : List (String × String)
  err : Option String
deriving DecidableEq, Repr

/-- `InvestigationStatus` from agent.types.ts: the aggregate job snapshot
the poller fetches and hands to `onUpdate`. -/
structure InvestigationStatus where
  investigation_id : String
  status : StatusEnum
  started_at : String
  completed_at : Option String
  agents : List AgentStatus
  final_report : Option String
  err : Option String
deriving DecidableEq, Repr

/-- A scripted server response for one poll tick: `none` models a fetch
failure (network/server error thrown by `getSiteAnalysisStatus`), `some s`
a successfully fetched snapshot. -/
abbrev FetchResult := Option InvestigationStatus

/-- The observable behaviour of `pollSiteAnalysisStatus` in api.ts
(lines 110-132) on a scripted response sequence: each tick fetches the next
response; on success it invokes `onUpdate` with the snapshot and schedules
the next tick iff the status is `running` or `pending`; on a fetch failure
it invokes nothing and schedules a retry.  The result is the list of
snapshots passed to `onUpdate`, in order. -/
def pollSiteAnalysisUpdates : List FetchResult → List InvestigationStatus
  | [] => []
  | none :: rest => pollSiteAnalysisUpdates rest
  | some s :: rest =>
      if s.status = StatusEnum.running ∨ s.status = StatusEnum.pending then
        s :: pollSiteAnalysisUpdates rest
      else
        [s]

/-- The observable behaviour of `pollTrialMonitoringStatus` in api.ts
(lines 188-210); its body is line-for-line identical to
`pollSiteAnalysisStatus`. -/
def pollTrialMonitoringUpdates : List FetchResult → List InvestigationStatus
  | [] => []
  | none :: rest => pollTrialMonitoringUpdates rest
  | some s :: rest =>
      if s.status = StatusEnum.running ∨ s.status = StatusEnum.pending then
        s :: pollTrialMonitoringUpdates rest
      else
        [s]

/-- A status on which the poll loop schedules another fetch. -/
def continuesPolling (s : StatusEnum) : Prop :=
  s = StatusEnum.running ∨ s = StatusEnum.pending

instance (s : StatusEnum) : Decidable (continuesPolling s) := by
  unfold continuesPolling; infer_instance

lemma pollSite_eq_pollMonitoring (rs : List FetchResult) :
    pollTrialMonitoringUpdates rs = pollSiteAnalysisUpdates rs := by
  induction rs with
  | nil => rfl
  | cons r rest ih =>
      cases r with
      | none => simpa [pollTrialMonitoringUpdates, pollSiteAnalysisUpdates] using ih
      | some s =>
          by_cases h : s.status = StatusEnum.running ∨ s.status = StatusEnum.pending
          · simp [pollTrialMonitoringUpdates, pollSiteAnalysisUpdates, h, ih]
          · simp [pollTrialMonitoringUpdates, pollSiteAnalysisUpdates, h]

lemma pollSite_nonterminal_cons (s : InvestigationStatus) (rest : List FetchResult)
    (h : s.status = StatusEnum.running ∨ s.status = StatusEnum.pending) :
    pollSiteAnalysisUpdates (some s :: rest) = s :: pollSiteAnalysisUpdates rest := by
  simp [pollSiteAnalysisUpdates, h]

lemma pollSite_terminal_cons (s : InvestigationStatus) (rest : List FetchResult)
    (h : s.status = StatusEnum.complete ∨ s.status = StatusEnum.error) :
    pollSiteAnalysisUpdates (some s :: rest) = [s] := by
  have h' : ¬ (s.status = StatusEnum.running ∨ s.status = StatusEnum.pending) := by
    rcases h with h | h <;> simp [h]
  simp [pollSiteAnalysisUpdates, h']

lemma pollSite_all_nonterminal_then_complete (pre : List InvestigationStatus)
    (fin : InvestigationStatus)
    (hpre : ∀ s ∈ pre, s.status = StatusEnum.running ∨ s.status = StatusEnum.pending)
    (hfin : fin.status = StatusEnum.complete) :
    pollSiteAnalysisUpdates ((pre ++ [fin]).map some) = pre ++ [fin] := by
  induction pre with
  | nil =>
      simp [pollSite_terminal_cons fin [] (Or.inl hfin)]
  | cons s rest ih =>
      have hs : s.status = StatusEnum.running ∨ s.status = StatusEnum.pending :=
        hpre s (List.mem_cons_self s rest)
      have hrest : ∀ t ∈ rest, t.status = StatusEnum.running ∨ t.status = StatusEnum.pending :=
        fun t ht => hpre t (List.mem_cons_of_mem s ht)
      simp only [List.cons_append, List.map_cons]
      rw [pollSite_nonterminal_cons s _ hs, ih hrest]

lemma pollSite_mem_sub (rs : List FetchResult) (s : InvestigationStatus)
    (hs : s ∈ pollSiteAnalysisUpdates rs) : some s ∈ rs := by
  induction rs with
  | nil => simp [pollSiteAnalysisUpdates] at hs
  | cons r rest ih =>
      cases r with
      | none =>
          simp only [pollSiteAnalysisUpdates] at hs
          exact List.mem_cons_of_mem _ (ih hs)
      | some t =>
          by_cases h : t.status = StatusEnum.running ∨ t.status = StatusEnum.pending
          · rw [pollSite_nonterminal_cons t rest h] at hs
            rcases List.mem_cons.mp hs with h1 | h2
            · exact h1 ▸ List.mem_cons_self _ _
            · exact List.mem_cons_of_mem _ (ih h2)
          · simp only [pollSiteAnalysisUpdates, if_neg h, List.mem_singleton] at hs
            exact hs ▸ List.mem_cons_self _ _

/-- A concrete investigation snapshot with the given overall status, used
as input for witness theorems. -/
def sampleSnapshot (st : StatusEnum) : InvestigationStatus :=
  { investigation_id := "inv-1"
    status := st
    started_at := "2025-01-01T00:00:00Z"
    completed_at := none
    agents := []
    final_report := none
    err := none }

/-- The snapshots the poll loop passes to `onUpdate` after the first `n`
invocations.  The loop in api.ts keeps no cancellation flag and returns no
handle to the caller, so a caller who ceases to listen after `n` updates
changes nothing in the loop: the remaining deliveries are exactly this
suffix of the full trace. -/
def updatesAfterStop (n : Nat) (rs : List FetchResult) : List InvestigationStatus :=
  (pollSiteAnalysisUpdates rs).drop n

/-- C1: both pollers invoke `onUpdate` once per successful fetch, including
non-terminal snapshots; a next fetch is scheduled iff the fetched status is
pending or running; after a complete/error snapshot no further fetch is
processed; and on a scripted sequence of nonterminal snapshots followed by
a COMPLETE one, `onUpdate` fires exactly `k` times for `k` polls. -/
theorem pollers_update_per_fetch_and_stop_on_terminal
    (s : InvestigationStatus) (rest : List FetchResult)
    (pre : List InvestigationStatus) (last : InvestigationStatus)
    (hpre : ∀ t ∈ pre, continuesPolling t.status)
    (hlast : last.status = StatusEnum.complete) :
    (continuesPolling s.status →
      pollSiteAnalysisUpdates (some s :: rest) = s :: pollSiteAnalysisUpdates rest) ∧
    (s.status = StatusEnum.complete ∨ s.status = StatusEnum.error →
      pollSiteAnalysisUpdates (some s :: rest) = [s]) ∧
    pollSiteAnalysisUpdates ((pre ++ [last]).map some) = pre ++ [last] ∧
    (pollSiteAnalysisUpdates ((pre ++ [last]).map some)).length = pre.length + 1 ∧
    pollTrialMonitoringUpdates ((pre ++ [last]).map some) = pre ++ [last] := by
  have hall := pollSite_all_nonterminal_then_complete pre last
    (fun t ht => hpre t ht) hlast
  refine ⟨fun h => pollSite_nonterminal_cons s rest h,
    fun h => pollSite_terminal_cons s rest h, hall, ?_, ?_⟩
  · rw [hall]; simp
  · rw [pollSite_eq_pollMonitoring, hall]

/-- Witness for C1 at a concrete two-poll script: one running snapshot, then
a complete one; `onUpdate` fires exactly twice. -/
theorem pollers_update_per_fetch_and_stop_on_terminal_witness :
    (∀ t ∈ [sampleSnapshot StatusEnum.running], continuesPolling t.status) ∧
    (sampleSnapshot StatusEnum.complete).status = StatusEnum.complete ∧
    (pollSiteAnalysisUpdates (([sampleSnapshot StatusEnum.running] ++
        [sampleSnapshot StatusEnum.complete]).map some)).length = 1 + 1 :=
  ⟨by decide, by decide,
    (pollers_update_per_fetch_and_stop_on_terminal
      (sampleSnapshot StatusEnum.running) []
      [sampleSnapshot StatusEnum.running] (sampleSnapshot StatusEnum.complete)
      (by decide) (by decide)).2.2.2.1⟩

/-- C2 counterexample: the poll loop has no `stop()`; with the script
running-then-complete, a caller who stops listening after the first update
still has the second, in-flight snapshot delivered to `onUpdate` — the late
response is delivered, not discarded. -/
theorem poll_stop_counterexample :
    updatesAfterStop 1
      [some (sampleSnapshot StatusEnum.running), some (sampleSnapshot StatusEnum.complete)]
      = [sampleSnapshot StatusEnum.complete] ∧
    updatesAfterStop 1
      [some (sampleSnapshot StatusEnum.running), some (sampleSnapshot StatusEnum.complete)]
      ≠ [] := by
  constructor
  · rfl
  · decide

/-- C2 amended: the poller exposes no stop() operation; every successfully
fetched snapshot is delivered even after the caller stops listening, and
the loop ceases only of its own accord: after a terminal (complete/error)
snapshot no further `onUpdate` occurs. -/
theorem poll_no_stop_terminal_only
    (s tfin : InvestigationStatus) (rest : List FetchResult)
    (hterm : tfin.status = StatusEnum.complete ∨ tfin.status = StatusEnum.error)
    (hrun : continuesPolling s.status) :
    pollSiteAnalysisUpdates (some tfin :: rest) = [tfin] ∧
    updatesAfterStop 1 [some s, some tfin] = [tfin] := by
  refine ⟨pollSite_terminal_cons tfin rest hterm, ?_⟩
  unfold updatesAfterStop
  rw [show ([some s, some tfin] : List FetchResult) = some s :: [some tfin] from rfl,
    pollSite_nonterminal_cons s [some tfin] hrun,
    pollSite_terminal_cons tfin [] hterm]
  rfl

/-- Witness for the C2 amended theorem at concrete snapshots. -/
theorem poll_no_stop_terminal_only_witness :
    ((sampleSnapshot StatusEnum.complete).status = StatusEnum.complete ∨
      (sampleSnapshot StatusEnum.complete).status = StatusEnum.error) ∧
    continuesPolling (sampleSnapshot StatusEnum.running).status ∧
    pollSiteAnalysisUpdates [some (sampleSnapshot StatusEnum.complete)]
      = [sampleSnapshot StatusEnum.complete] :=
  ⟨by decide, by decide,
    (poll_no_stop_terminal_only (sampleSnapshot StatusEnum.running)
      (sampleSnapshot StatusEnum.complete) [] (by decide) (by decide)).1⟩

/-- C3: a fetch failure aborts nothing — the tick contributes no `onUpdate`
call and the loop carries on with the rest of the script unchanged, for both
pollers; and every snapshot ever delivered was fetched from the server, so a
transport failure is never itself surfaced as a terminal ERROR update. -/
theorem poll_failure_retries_without_update
    (rest rs : List FetchResult) (s : InvestigationStatus)
    (hs : s ∈ pollSiteAnalysisUpdates rs) :
    pollSiteAnalysisUpdates (none :: rest) = pollSiteAnalysisUpdates rest ∧
    pollTrialMonitoringUpdates (none :: rest) = pollTrialMonitoringUpdates rest ∧
    some s ∈ rs := by
  refine ⟨rfl, rfl, pollSite_mem_sub rs s hs⟩

/-- Witness for C3: with a failure tick before a complete snapshot, the
delivered updates are those of the failure-free script, and the delivered
snapshot is a server response. -/
theorem poll_failure_retries_without_update_witness :
    sampleSnapshot StatusEnum.complete ∈
      pollSiteAnalysisUpdates [some (sampleSnapshot StatusEnum.complete)] ∧
    pollSiteAnalysisUpdates (none :: [some (sampleSnapshot StatusEnum.complete)])
      = pollSiteAnalysisUpdates [some (sampleSnapshot StatusEnum.complete)] ∧
    some (sampleSnapshot StatusEnum.complete) ∈
      ([some (sampleSnapshot StatusEnum.complete)] : List FetchResult) :=
  ⟨by decide,
    (poll_failure_retries_without_update [some (sampleSnapshot StatusEnum.complete)]
      [some (sampleSnapshot StatusEnum.complete)]
      (sampleSnapshot StatusEnum.complete) (by decide)).1,
    (poll_failure_retries_without_update [some (sampleSnapshot StatusEnum.complete)]
      [some (sampleSnapshot StatusEnum.complete)]
      (sampleSnapshot StatusEnum.complete) (by decide)).2.2⟩

/-- One row of `mockForecastData` in EnrollmentCurveChart: a week number,
an optional actual enrollment, and optional p10/p50/p90 quantiles (`null`
in the source becomes `none`). -/
structure ForecastPoint where
  week : Nat
  actual : Option Nat
  p10 : Option Nat
  p50 : Option Nat
  p90 : Option Nat
deriving DecidableEq, Repr

/-- The `mockForecastData` array of EnrollmentCurveChart (part_000,
lines 27-54), transcribed verbatim: weeks 1-13 are historical actuals,
weeks 14-52 are forecast quantiles. -/
def mockForecastData : List ForecastPoint :=
  [ ⟨1, some 12, none, none, none⟩
  , ⟨2, some 25, none, none, none⟩
  , ⟨3, some 38, none, none, none⟩
  , ⟨4, some 52, none, none, none⟩
  , ⟨5, some 64, none, none, none⟩
  , ⟨6, some 77, none, none, none⟩
  , ⟨7, some 89, none, none, none⟩
  , ⟨8, some 98, none, none, none⟩
  , ⟨9, some 108, none, none, none⟩
  , ⟨10, some 116, none, none, none⟩
  , ⟨11, some 122, none, none, none⟩
  , ⟨12, some 128, none, none, none⟩
  , ⟨13, some 132, none, none, none⟩
  , ⟨14, none, some 135, some 140, some 145⟩
  , ⟨18, none, some 145, some 155, some 165⟩
  , ⟨22, none, some 152, some 167, some 182⟩
  , ⟨26, none, some 158, some 178, some 198⟩
  , ⟨30, none, some 163, some 187, some 211⟩
  , ⟨34, none, some 167, some 195, some 223⟩
  , ⟨38, none, some 170, some 202, some 234⟩
  , ⟨42, none, some 173, some 208, some 243⟩
  , ⟨46, none, some 175, some 213, some 251⟩
  , ⟨50, none, some 177, some 217, some 257⟩
  , ⟨52, none, some 178, some 219, some 260⟩ ]

/-- `targetEnrollment` constant of EnrollmentCurveChart (line 56). -/
def targetEnrollment : Nat := 200

/-- `currentEnrolled` constant of EnrollmentCurveChart (line 57). -/
def currentEnrolled : Nat := 132

/-- `projectedFinal` constant of EnrollmentCurveChart (line 58). -/
def projectedFinal : Nat := 219

/-- `probabilityMeetingTarget` constant of EnrollmentCurveChart (line 59),
the float 0.68 modelled as an exact rational. -/
def probabilityMeetingTarget : ℚ := 68 / 100

/-- Weeks elapsed shown by the chart and MonitoringView ("Week 13 of 52"). -/
def weeksElapsed : Nat := 13

/-- Total trial weeks shown by the chart and MonitoringView. -/
def totalWeeks : Nat := 52

/-- The p90 − p10 spread of a forecast point. -/
def spread (p : ForecastPoint) : Int :=
  (p.p90.getD 0 : Int) - (p.p10.getD 0 : Int)

/-- C5: in `mockForecastData`, every point with week ≤ 13 carries an actual
and no quantiles; every point with week > 13 carries no actual, its three
quantiles are populated with p10 ≤ p50 ≤ p90; and the p90−p10 spread is
monotone in the week over the forecast region. -/
theorem forecast_curve_invariants :
    (∀ p ∈ mockForecastData, p.week ≤ weeksElapsed →
      p.actual.isSome ∧ p.p10 = none ∧ p.p50 = none ∧ p.p90 = none) ∧
    (∀ p ∈ mockForecastData, weeksElapsed < p.week →
      p.actual = none ∧ p.p10.isSome ∧ p.p50.isSome ∧ p.p90.isSome ∧
      p.p10.getD 0 ≤ p.p50.getD 0 ∧ p.p50.getD 0 ≤ p.p90.getD 0) ∧
    (∀ p ∈ mockForecastData, ∀ q ∈ mockForecastData,
      weeksElapsed < p.week → p.week < q.week → spread p ≤ spread q) := by
  refine ⟨?_, ?_, ?_⟩ <;> decide

/-- Witness for C5 at two concrete forecast points (weeks 14 and 52). -/
theorem forecast_curve_invariants_witness :
    (⟨14, none, some 135, some 140, some 145⟩ : ForecastPoint) ∈ mockForecastData ∧
    (⟨52, none, some 178, some 219, some 260⟩ : ForecastPoint) ∈ mockForecastData ∧
    weeksElapsed < 14 ∧ (14 : Nat) < 52 ∧
    spread ⟨14, none, some 135, some 140, some 145⟩ ≤
      spread ⟨52, none, some 178, some 219, some 260⟩ :=
  ⟨by decide, by decide, by decide, by decide,
    forecast_curve_invariants.2.2
      ⟨14, none, some 135, some 140, some 145⟩ (by decide)
      ⟨52, none, some 178, some 219, some 260⟩ (by decide)
      (by decide) (by decide)⟩

/-- C6: the baseline forecast scalars of EnrollmentCurveChart — probability
of meeting target 0.68 and projected (median) final enrollment 219 with
current enrolled 132 at week 13 of 52 — and their consistency with the
curve at the 52-week horizon: p50(52) equals the projected final, and the
target 200 lies strictly between p10(52) and p90(52). -/
theorem baseline_forecast_scalars :
    probabilityMeetingTarget = 68 / 100 ∧
    projectedFinal = 219 ∧
    currentEnrolled = 132 ∧ targetEnrollment = 200 ∧
    (∃ p ∈ mockForecastData, p.week = weeksElapsed ∧ p.actual = some currentEnrolled) ∧
    (∃ p ∈ mockForecastData, p.week = totalWeeks ∧ p.p50 = some projectedFinal ∧
      p.p10.getD 0 < targetEnrollment ∧ targetEnrollment < p.p90.getD 0) := by
  refine ⟨rfl, rfl, rfl, rfl, ?_, ?_⟩ <;> decide

/-- One element of the `mockAlerts` array in AlertDashboard.tsx; severity
and alert_type are the string literals of the source. -/
structure MockAlert where
  alert_id : String
  site_id : String
  site_name : String
  severity : String
  alert_type : String
  message : String
  details : String
  current_enrollment : Nat
  target_enrollment : Nat
  shortfall_percent : Nat
  weeks_since_last_enrollment : Nat
  recommended_actions : List String
deriving DecidableEq, Repr

/-- The `mockAlerts` array of AlertDashboard.tsx (lines 15-69), transcribed
verbatim. -/
def mockAlerts : List MockAlert :=
  [ { alert_id := "1"
      site_id := "Site-022"
      site_name := "Boston Medical Center"
      severity := "critical"
      alert_type := "flatlined"
      message := "Site has reported 0 enrollments for the past 3 weeks"
      details := "Last enrollment recorded in week 10. PI may be unavailable. Immediate intervention required."
      current_enrollment := 18
      target_enrollment := 20
      shortfall_percent := 65
      weeks_since_last_enrollment := 3
      recommended_actions :=
        [ "Contact site coordinator immediately"
        , "Assess PI availability"
        , "Consider adding recruitment budget or site replacement" ] }
  , { alert_id := "2"
      site_id := "Site-178"
      site_name := "Seattle Medical Center"
      severity := "warning"
      alert_type := "underperforming"
      message := "Site enrolled 11 patients vs expected 20 (45% shortfall)"
      details := "Enrollment rate declining over past 4 weeks. High competition from 4 concurrent trials."
      current_enrollment := 11
      target_enrollment := 20
      shortfall_percent := 45
      weeks_since_last_enrollment := 0
      recommended_actions :=
        [ "Increase site support and training"
        , "Review patient screening criteria"
        , "Consider additional recruitment budget" ] }
  , { alert_id := "3"
      site_id := "Site-267"
      site_name := "Portland Regional Hospital"
      severity := "info"
      alert_type := "declining_trend"
      message := "Enrollment rate declining but still on track"
      details := "Weekly enrollment dropped from 2.5 to 1.8 patients. Monitor closely."
      current_enrollment := 14
      target_enrollment := 20
      shortfall_percent := 30
      weeks_since_last_enrollment := 0
      recommended_actions :=
        [ "Monitor weekly performance"
        , "Schedule check-in call with site" ] } ]

/-- The forecast points EnrollmentCurveChart renders for a given
`report` prop: the component never reads `report` and always charts the
fixed `mockForecastData` array. -/
def enrollmentChartData (report : String) : List ForecastPoint :=
  mockForecastData

/-- The alerts AlertDashboard renders for a given `report` prop: the
component never reads `report` and always shows the fixed `mockAlerts`. -/
def alertDashboardAlerts (report : String) : List MockAlert :=
  mockAlerts

/-- `parseRecommendations` of SiteSelectionView (part_001, lines 74-80):
returns `null` when `finalReport` is falsy (absent or the empty string) and
otherwise the report string unchanged; no schema validation, no error. -/
def parseRecommendations (finalReport : Option String) : Option String :=
  match finalReport with
  | none => none
  | some s => if s = "" then none else some s

/-- C4 counterexample: on an artifact that cannot be parsed into the
expected schema, no consumer reports an error — EnrollmentCurveChart and
AlertDashboard render exactly what they render for any other report (the
fixed mock substitute, derived from nothing in the artifact), and
`parseRecommendations` passes the unparseable text through unchanged. -/
theorem parse_failure_silent_counterexample :
    enrollmentChartData "::not-a-valid-artifact::" = enrollmentChartData "" ∧
    alertDashboardAlerts "::not-a-valid-artifact::" = alertDashboardAlerts "" ∧
    enrollmentChartData "::not-a-valid-artifact::" = mockForecastData ∧
    alertDashboardAlerts "::not-a-valid-artifact::" = mockAlerts ∧
    parseRecommendations (some "::not-a-valid-artifact::")
      = some "::not-a-valid-artifact::" := by
  refine ⟨rfl, rfl, rfl, rfl, by decide⟩

/-- C4 amended: no consumer detects or reports a data-shape failure — the
chart and alert dashboard outputs are constant in the report, substituting
fixed mock data regardless of what the artifact holds, and
`parseRecommendations` returns any non-empty report text unchanged. -/
theorem parse_failure_never_reported
    (r r' s : String) (hs : s ≠ "") :
    enrollmentChartData r = enrollmentChartData r' ∧
    alertDashboardAlerts r = alertDashboardAlerts r' ∧
    parseRecommendations (some s) = some s := by
  refine ⟨rfl, rfl, by simp [parseRecommendations, hs]⟩

/-- Witness for the C4 amended theorem at concrete report strings. -/
theorem parse_failure_never_reported_witness :
    ("garbage" : String) ≠ "" ∧
    enrollmentChartData "report-a" = enrollmentChartData "report-b" ∧
    parseRecommendations (some "garbage") = some "garbage" :=
  ⟨by decide,
    (parse_failure_never_reported "report-a" "report-b" "garbage" (by decide)).1,
    (parse_failure_never_reported "report-a" "report-b" "garbage" (by decide)).2.2⟩

/-- Alert severity, mirroring `AlertSeverity` of clinical.types.ts. -/
inductive AlertSeverity where
  | info
  | warning
  | critical
deriving DecidableEq, Repr

/-- The alert types named by the spec's classifier and by the mock data. -/
inductive AlertType where
  | flatlined
  | underperforming
  | declining_trend
deriving DecidableEq, Repr

/-- Enrollment trend, mirroring the `trend` union of
`SiteEnrollmentStatus` in clinical.types.ts. -/
inductive Trend where
  | improving
  | stable
  | declining
  | flatlined
deriving DecidableEq, Repr

/-- The classifier inputs drawn from a `SiteEnrollmentStatus` and its
target: weeks since last enrollment, expected and actual enrollment to
date, and the trend. -/
structure SiteStatusForAlert where
  weeks_since_last_enrollment : Nat
  expected_enrollment_to_date : ℚ
  actual_enrollment : ℚ
  trend : Trend
deriving DecidableEq, Repr

/-- Modelled from the spec: the alert classifier lives in the Python
backend, which is absent from the sources; §4.4 defines
`shortfall_percent = 100 × (expected − actual) / expected`, clamped
to ≥ 0. -/
def shortfall_percent (s : SiteStatusForAlert) : ℚ :=
  max 0 (100 * (s.expected_enrollment_to_date - s.actual_enrollment)
    / s.expected_enrollment_to_date)

/-- Modelled from the spec: the backend alert classifier of §4.4, absent
from the sources — rules applied in priority order, first match wins:
1. weeks_since_last_enrollment ≥ 3 → critical/flatlined;
2. shortfall ≥ 40 → warning/underperforming;
3. declining trend and shortfall ≥ 20 → info/declining_trend;
4. otherwise no alert. -/
def classifyAlert (s : SiteStatusForAlert) : Option (AlertSeverity × AlertType) :=
  if 3 ≤ s.weeks_since_last_enrollment then
    some (AlertSeverity.critical, AlertType.flatlined)
  else if 40 ≤ shortfall_percent s then
    some (AlertSeverity.warning, AlertType.underperforming)
  else if s.trend = Trend.declining ∧ 20 ≤ shortfall_percent s then
    some (AlertSeverity.info, AlertType.declining_trend)
  else
    none

/-- Modelled from the spec: §4.4's fixed `recommended_actions` lookup keyed
by (severity, alert_type), populated with the action lists the mock alerts
of AlertDashboard.tsx attach to each key. -/
def recommendedActions : AlertSeverity × AlertType → List String
  | (AlertSeverity.critical, AlertType.flatlined) =>
      [ "Contact site coordinator immediately"
      , "Assess PI availability"
      , "Consider adding recruitment budget or site replacement" ]
  | (AlertSeverity.warning, AlertType.underperforming) =>
      [ "Increase site support and training"
      , "Review patient screening criteria"
      , "Consider additional recruitment budget" ]
  | (AlertSeverity.info, AlertType.declining_trend) =>
      [ "Monitor weekly performance"
      , "Schedule check-in call with site" ]
  | _ => []

/-- The actions attached to the alert (if any) emitted for a site. -/
def actionsFor (s : SiteStatusForAlert) : List String :=
  match classifyAlert s with
  | none => []
  | some k => recommendedActions k

/-- C7: the classifier applies rule 1 first — any site flatlined for ≥ 3
weeks gets a critical/flatlined alert regardless of its shortfall — its
actions are the fixed lookup value for (critical, flatlined), and the
actions depend only on the classified (severity, alert_type) key. -/
theorem alert_classifier_flatlined_priority
    (s : SiteStatusForAlert) (h : 3 ≤ s.weeks_since_last_enrollment) :
    classifyAlert s = some (AlertSeverity.critical, AlertType.flatlined) ∧
    actionsFor s = recommendedActions (AlertSeverity.critical, AlertType.flatlined) ∧
    (∀ t : SiteStatusForAlert, classifyAlert t = classifyAlert s →
      actionsFor t = actionsFor s) := by
  have hc : classifyAlert s = some (AlertSeverity.critical, AlertType.flatlined) := by
    simp [classifyAlert, h]
  refine ⟨hc, by simp [actionsFor, hc], fun t ht => by simp [actionsFor, ht]⟩

/-- Witness for C7: a site flatlined for 4 weeks with a 50% shortfall
(expected 20, actual 10) is classified critical/flatlined, not warning. -/
theorem alert_classifier_flatlined_priority_witness :
    3 ≤ (⟨4, 20, 10, Trend.stable⟩ : SiteStatusForAlert).weeks_since_last_enrollment ∧
    shortfall_percent ⟨4, 20, 10, Trend.stable⟩ = 50 ∧
    classifyAlert ⟨4, 20, 10, Trend.stable⟩
      = some (AlertSeverity.critical, AlertType.flatlined) :=
  ⟨by norm_num, by norm_num [shortfall_percent],
    (alert_classifier_flatlined_priority ⟨4, 20, 10, Trend.stable⟩ (by norm_num)).1⟩

/-- The number of agents whose status is COMPLETE. -/
def countComplete (agents : List AgentStatus) : Nat :=
  agents.countP fun a => decide (a.status = StatusEnum.complete)

/-- The overall progress fraction displayed by SiteSelectionView
(part_001, lines 170-186) and MonitoringView.tsx (lines 148-165):
`agents.filter(a => a.status === COMPLETE).length / agents.length`. -/
def overallProgress (agents : List AgentStatus) : ℚ :=
  (((agents.filter fun a => decide (a.status = StatusEnum.complete)).length : ℚ))
    / ((agents.length : ℚ))

lemma countComplete_le_of_pointwise (a b : List AgentStatus)
    (hlen : a.length = b.length)
    (hmono : ∀ i (ha : i < a.length) (hb : i < b.length),
      (a.get ⟨i, ha⟩).status = StatusEnum.complete →
      (b.get ⟨i, hb⟩).status = StatusEnum.complete) :
    countComplete a ≤ countComplete b := by
  induction a generalizing b with
  | nil => simp [countComplete]
  | cons x xs ih =>
      cases b with
      | nil => simp at hlen
      | cons y ys =>
          have hlen' : xs.length = ys.length := by simpa using hlen
          have htail : ∀ i (ha : i < xs.length) (hb : i < ys.length),
              (xs.get ⟨i, ha⟩).status = StatusEnum.complete →
              (ys.get ⟨i, hb⟩).status = StatusEnum.complete := by
            intro i ha hb hx
            exact hmono (i + 1) (by simpa using Nat.succ_lt_succ ha)
              (by simpa using Nat.succ_lt_succ hb) hx
          have hhead : x.status = StatusEnum.complete →
              y.status = StatusEnum.complete := by
            intro hx
            exact hmono 0 (by simp) (by simp) hx
          have hxs := ih ys hlen' htail
          simp only [countComplete] at hxs
          simp only [countComplete, List.countP_cons]
          by_cases hx : x.status = StatusEnum.complete
          · have hy := hhead hx
            simp [hx, hy]
            omega
          · by_cases hy : y.status = StatusEnum.complete
            · simp [hx, hy]
              omega
            · simp [hx, hy]
              omega


/-- A concrete agent snapshot with the given status, for witnesses. -/
def sampleAgent (st : StatusEnum) : AgentStatus :=
  { agent_id := "performance_analyst"
    agent_name := "Site Performance Analyst"
    status := st
    started_at := none
    completed_at := none
    tasks := []
    err := none }

/-- C8: the displayed overall progress fraction equals
(count of COMPLETE agents) / (total agents), and under any evolution of the
same agent list in which an already-COMPLETE agent never reverts, the
fraction is monotonically non-decreasing. -/
theorem overall_progress_eq_and_monotone
    (a b : List AgentStatus)
    (hlen : a.length = b.length)
    (hmono : ∀ i (ha : i < a.length) (hb : i < b.length),
      (a.get ⟨i, ha⟩).status = StatusEnum.complete →
      (b.get ⟨i, hb⟩).status = StatusEnum.complete) :
    overallProgress a = (countComplete a : ℚ) / (a.length : ℚ) ∧
    overallProgress a ≤ overallProgress b := by
  have hcount : ∀ c : List AgentStatus,
      ((c.filter fun x => decide (x.status = StatusEnum.complete)).length : ℚ)
        = (countComplete c : ℚ) := by
    intro c
    norm_cast
    simp [countComplete, List.countP_eq_length_filter]
  constructor
  · unfold overallProgress
    rw [hcount a]
  · unfold overallProgress
    rw [hcount a, hcount b, ← hlen]
    rcases Nat.eq_zero_or_pos a.length with h0 | hpos
    · simp [h0]
    · have hc : (0 : ℚ) < (a.length : ℚ) := by exact_mod_cast hpos
      rw [div_le_div_iff_of_pos_right hc]
      exact_mod_cast countComplete_le_of_pointwise a b hlen hmono

/-- Witness for C8: one pending agent evolving to complete raises the
fraction from 0 to 1. -/
theorem overall_progress_eq_and_monotone_witness :
    [sampleAgent StatusEnum.pending].length = [sampleAgent StatusEnum.complete].length ∧
    overallProgress [sampleAgent StatusEnum.pending] ≤
      overallProgress [sampleAgent StatusEnum.complete] :=
  ⟨rfl,
    (overall_progress_eq_and_monotone
      [sampleAgent StatusEnum.pending] [sampleAgent StatusEnum.complete] rfl
      (by
        intro i ha hb h
        simp only [List.length_singleton] at ha
        interval_cases i
        simp [sampleAgent] at h)).2⟩

/-- Partial `TrialParameters` as accepted by `startSiteAnalysis`:
every field optional (TypeScript `Partial<TrialParameters>`). -/
structure PartialTrialParameters where
  phase : Option String
  indication : Option String
  target_enrollment : Option Int
  duration_months : Option Int
  target_sites : Option Int
deriving DecidableEq, Repr

/-- `TrialParameters` from clinical.types.ts. -/
structure TrialParameters where
  phase : String
  indication : String
  target_enrollment : Int
  duration_months : Int
  target_sites : Int
deriving DecidableEq, Repr

/-- JavaScript `v || d` for an optional string operand: `undefined` and the
empty string are falsy and yield the default. -/
def jsOrString (v : Option String) (d : String) : String :=
  match v with
  | none => d
  | some s => if s = "" then d else s

/-- JavaScript `v || d` for an optional numeric operand: `undefined` and 0
are falsy and yield the default. -/
def jsOrNumber (v : Option Int) (d : Int) : Int :=
  match v with
  | none => d
  | some n => if n = 0 then d else n

/-- The request body posted by `startSiteAnalysis` (api.ts lines 60-74):
each field is `trialParams?.field || default`. -/
def startSiteAnalysisBody (trialParams : Option PartialTrialParameters) :
    TrialParameters :=
  { phase := jsOrString (trialParams.bind PartialTrialParameters.phase) "Phase III"
    indication := jsOrString (trialParams.bind PartialTrialParameters.indication) "Oncology"
    target_enrollment :=
      jsOrNumber (trialParams.bind PartialTrialParameters.target_enrollment) 200
    duration_months :=
      jsOrNumber (trialParams.bind PartialTrialParameters.duration_months) 18
    target_sites := jsOrNumber (trialParams.bind PartialTrialParameters.target_sites) 10 }

/-- C9: every field of the posted body is populated — an absent argument
yields all five defaults, a falsy field (zero number or empty string) is
silently overridden by its default, and a truthy field passes through. -/
theorem startSiteAnalysis_defaults_override_falsy
    (p : PartialTrialParameters) (n : Int) (hn : n ≠ 0) (s : String) (hs : s ≠ "") :
    startSiteAnalysisBody none = ⟨"Phase III", "Oncology", 200, 18, 10⟩ ∧
    ((p.phase = none ∨ p.phase = some "") →
      (startSiteAnalysisBody (some p)).phase = "Phase III") ∧
    ((p.indication = none ∨ p.indication = some "") →
      (startSiteAnalysisBody (some p)).indication = "Oncology") ∧
    ((p.target_enrollment = none ∨ p.target_enrollment = some 0) →
      (startSiteAnalysisBody (some p)).target_enrollment = 200) ∧
    ((p.duration_months = none ∨ p.duration_months = some 0) →
      (startSiteAnalysisBody (some p)).duration_months = 18) ∧
    ((p.target_sites = none ∨ p.target_sites = some 0) →
      (startSiteAnalysisBody (some p)).target_sites = 10) ∧
    (p.target_enrollment = some n →
      (startSiteAnalysisBody (some p)).target_enrollment = n) ∧
    (p.phase = some s → (startSiteAnalysisBody (some p)).phase = s) := by
  refine ⟨rfl, ?_, ?_, ?_, ?_, ?_, ?_, ?_⟩
  · rintro (h | h) <;> simp [startSiteAnalysisBody, jsOrString, h]
  · rintro (h | h) <;> simp [startSiteAnalysisBody, jsOrString, h]
  · rintro (h | h) <;> simp [startSiteAnalysisBody, jsOrNumber, h]
  · rintro (h | h) <;> simp [startSiteAnalysisBody, jsOrNumber, h]
  · rintro (h | h) <;> simp [startSiteAnalysisBody, jsOrNumber, h]
  · intro h; simp [startSiteAnalysisBody, jsOrNumber, h, hn]
  · intro h; simp [startSiteAnalysisBody, jsOrString, h, hs]

/-- Witness for C9: a caller-supplied empty phase and zero target
enrollment are replaced by the defaults. -/
theorem startSiteAnalysis_defaults_override_falsy_witness :
    (24 : Int) ≠ 0 ∧ ("Phase I" : String) ≠ "" ∧
    (startSiteAnalysisBody
      (some ⟨some "", none, some 0, some 24, some 0⟩)).phase = "Phase III" ∧
    (startSiteAnalysisBody
      (some ⟨some "", none, some 0, some 24, some 0⟩)).target_enrollment = 200 :=
  ⟨by decide, by decide,
    (startSiteAnalysis_defaults_override_falsy
      ⟨some "", none, some 0, some 24, some 0⟩ 24 (by decide) "Phase I"
      (by decide)).2.1 (Or.inr rfl),
    (startSiteAnalysis_defaults_override_falsy
      ⟨some "", none, some 0, some 24, some 0⟩ 24 (by decide) "Phase I"
      (by decide)).2.2.2.1 (Or.inr rfl)⟩

/-- A JavaScript number resulting from a division: a finite value, NaN, or
Infinity. -/
inductive JsNumber where
  | num (q : ℚ)
  | nan
  | inf
deriving DecidableEq, Repr

/-- JavaScript division for the non-negative operands arising here:
`0 / 0` is NaN, `x / 0` with `x ≠ 0` is Infinity, otherwise the exact
quotient. -/
def jsDiv (a b : ℚ) : JsNumber :=
  if b = 0 then (if a = 0 then JsNumber.nan else JsNumber.inf)
  else JsNumber.num (a / b)

/-- The overall-progress expression of SiteSelectionView (part_001,
lines 174-185) and MonitoringView.tsx (lines 152-164) under JavaScript
number semantics:
`agents.filter(a => a.status === COMPLETE).length / agents.length`. -/
def overallProgressJs (agents : List AgentStatus) : JsNumber :=
  jsDiv
    (((agents.filter fun a => decide (a.status = StatusEnum.complete)).length : ℚ))
    ((agents.length : ℚ))

/-- C10: with a non-empty agents list the displayed progress is a finite
value in [0,1]; with an empty agents list the expression is 0/0, i.e. NaN,
at the rendering interface. -/
theorem overall_progress_nan_on_empty
    (agents : List AgentStatus) (h : agents ≠ []) :
    (∃ q : ℚ, overallProgressJs agents = JsNumber.num q ∧ 0 ≤ q ∧ q ≤ 1) ∧
    overallProgressJs [] = JsNumber.nan := by
  constructor
  · have hlen : agents.length ≠ 0 := by
      simpa [List.length_eq_zero] using h
    have hlenq : ((agents.length : ℚ)) ≠ 0 := by exact_mod_cast hlen
    have hlenpos : (0 : ℚ) < (agents.length : ℚ) := by
      have : 0 < agents.length := Nat.pos_of_ne_zero hlen
      exact_mod_cast this
    refine ⟨((agents.filter fun a =>
        decide (a.status = StatusEnum.complete)).length : ℚ) / (agents.length : ℚ),
      ?_, ?_, ?_⟩
    · simp [overallProgressJs, jsDiv, hlenq]
    · positivity
    · rw [div_le_one hlenpos]
      exact_mod_cast List.length_filter_le _ agents
  · rfl

/-- Witness for C10: a single complete agent yields the finite fraction
1, while the empty list yields NaN. -/
theorem overall_progress_nan_on_empty_witness :
    ([sampleAgent StatusEnum.complete] : List AgentStatus) ≠ [] ∧
    (∃ q : ℚ, overallProgressJs [sampleAgent StatusEnum.complete] = JsNumber.num q ∧
      0 ≤ q ∧ q ≤ 1) ∧
    overallProgressJs [] = JsNumber.nan :=
  ⟨by decide,
    (overall_progress_nan_on_empty [sampleAgent StatusEnum.complete] (by decide)).1,
    (overall_progress_nan_on_empty [sampleAgent StatusEnum.complete] (by decide)).2⟩

end ClinicalTrial
